import Mathlib

/-!
# Verification of `src/cli/src/device/emulator.py` (docker-android)

A shallow embedding, in Lean 4, of the `Emulator` class of
`src/cli/src/device/emulator.py`, together with theorems settling the
specification claims about it.

Conventions of the embedding:
* Python strings are Lean `String`s; character-level operations work on
  `String.data : List Char`.
* External effects (running a diagnostic command, running `cp`/`rm`,
  checking file existence) are supplied as explicit oracle functions, so
  that every behaviour of the environment is quantified over.
* Python exceptions that escape a method are modelled as explicit result
  constructors (`Except`-style); exceptions that the method catches are
  modelled by the oracle outcome they produce.
* Machine integers do not occur: all counters are small `Nat`s in the
  source (attempt counters, port numbers).
-/

namespace DockerAndroid

/-! ## String machinery

Python's `expected_keyword in str(output).lower()` is a case-sensitive
substring test of the *raw* keyword against the *lowercased* output, and
`str.lower()` lowercases each character.  For the ASCII command output and
keywords this program manipulates, per-character lowercasing is
`Char.toLower`.  Substring containment is modelled on `List Char`.
-/

/-- `startsWithChars p s` : `p` is a prefix of `s` (character lists). -/
def startsWithChars : List Char → List Char → Bool
  | [], _ => true
  | _ :: _, [] => false
  | p :: ps, c :: cs => p == c && startsWithChars ps cs

/-- `containsSub pat s` : `pat` occurs as a contiguous substring of `s`.
This is Python's `pat in s` on strings. -/
def containsSub (pat : List Char) : List Char → Bool
  | [] => startsWithChars pat []
  | c :: cs => startsWithChars pat (c :: cs) || containsSub pat cs

/-- Python `pat in s` for strings. -/
def strContains (s pat : String) : Bool :=
  containsSub pat.data s.data

/-- Python `s.lower()` (per-character lowercasing; ASCII-faithful). -/
def lowerStr (s : String) : String :=
  ⟨s.data.map Char.toLower⟩

/-! ## The readiness poller: `Emulator.check_adb_command`

Source (`src/cli/src/device/emulator.py`, lines 231-262):

```python
success = False
for _ in range(1, max_attempts):
    if success:
        break
    else:
        try:
            output = subprocess.check_output(bash_command.split()).decode(UTF8)
            if expected_keyword in str(output).lower():
                if readiness_check_type is self.ReadinessCheck.POP_UP_WINDOW:
                    subprocess.check_call(adb_action, shell=True)
                else:
                    self.logger.info(...)
                    success = True
            else:
                self.logger.info(f"[attempt: {_}] ...")
                time.sleep(interval_waiting_time)
        except subprocess.CalledProcessError:
            self.logger.warning("command cannot be executed! will continue...")
            time.sleep(2)
            continue
else:
    if readiness_check_type is self.ReadinessCheck.POP_UP_WINDOW:
        self.logger.info(f"Pop up windows '{expected_keyword}' is not found!")
    else:
        raise RuntimeError(f"{readiness_check_type.value} is checked {_} times!")
```

The `else:` at the end is attached to the `for` (a `for`/`else`), so it
runs exactly when the loop terminates without `break`.  The loop variable
`_` is referenced in the final `raise`; if the loop body never ran it is
unbound and Python raises an `UnboundLocalError` instead.
-/

/-- `Emulator.ReadinessCheck` enum; each value carries its human-readable
description string. -/
inductive ReadinessCheck
  | booted
  | runState
  | welcomeScreen
  | popUpWindow
  deriving DecidableEq, Repr

/-- The `.value` string of a `ReadinessCheck` member. -/
def ReadinessCheck.value : ReadinessCheck → String
  | .booted => "booted"
  | .runState => "in running state"
  | .welcomeScreen => "in welcome screen"
  | .popUpWindow => "pop up window"

/-- Outcome of one execution of the diagnostic command:
`ok output` for a successful `subprocess.check_output`, `err` when it
raises `subprocess.CalledProcessError`. -/
inductive CmdResult
  | ok (output : String)
  | err
  deriving DecidableEq, Repr

/-- How a call of `check_adb_command` terminates:
`normal` – the method returns; `runtimeErr n` – the `for`/`else` raises
`RuntimeError(f"... is checked {n} times!")`; `nameErr` – the `for`/`else`
references the never-assigned loop variable `_` and Python raises an
unbound-local error. -/
inductive CheckResult
  | normal
  | runtimeErr (attempts : Nat)
  | nameErr
  deriving DecidableEq, Repr

/-- Observable outcome of a `check_adb_command` call: how it terminated,
how many times the diagnostic command was invoked, and the (1-based)
attempt numbers at which the `adb_action` remedial command was run. -/
structure CheckOutcome where
  result : CheckResult
  invocations : Nat
  actionAttempts : List Nat
  deriving DecidableEq, Repr

/-- Does attempt `i`'s diagnostic command produce output whose lowercasing
contains the raw `expected_keyword`?  (`expected_keyword in str(output).lower()`;
a `CalledProcessError` attempt matches nothing.) -/
def matchesAt (cmd : Nat → CmdResult) (keyword : String) (i : Nat) : Bool :=
  match cmd i with
  | .ok out => strContains (lowerStr out) keyword
  | .err => false

/-- The `for`/`else` branch of the loop: for `POP_UP_WINDOW` it logs and
falls through; otherwise it raises `RuntimeError` mentioning the loop
variable `_` (whose last assigned value is `last`), which is an
unbound-local error when the body never ran. -/
def forElse (kind : ReadinessCheck) (last : Option Nat) : CheckResult :=
  if kind = .popUpWindow then
    .normal                           -- logs "Pop up windows ... is not found!"
  else
    match last with
    | some n => .runtimeErr n
    | none => .nameErr                -- `_` referenced but never assigned

/-- The loop of `check_adb_command`.  `i` is the current value the loop
variable `_` would take, `fuel` the number of remaining iterations of
`range(1, max_attempts)`, `success` the `success` flag, `inv` the number
of diagnostic-command invocations so far, `acts` the attempts at which the
remedial action ran, and `last` the last value assigned to `_` (`none` if
the body never ran).  When `fuel` runs out the `for`/`else` branch fires. -/
def runCheck (kind : ReadinessCheck) (cmd : Nat → CmdResult) (keyword : String) :
    Nat → Nat → Bool → Nat → List Nat → Option Nat → CheckOutcome
  | _, 0, _, inv, acts, last =>
    -- loop exhausted without break
    ⟨forElse kind last, inv, acts⟩
  | i, fuel + 1, success, inv, acts, _ =>
    if success then
      ⟨.normal, inv, acts⟩            -- `break`: for/else skipped
    else
      match cmd i with
      | .err =>
        -- CalledProcessError: warn, sleep 2, continue
        runCheck kind cmd keyword (i + 1) fuel success (inv + 1) acts (some i)
      | .ok out =>
        if strContains (lowerStr out) keyword then
          if kind = .popUpWindow then
            -- action executed; `success` is NOT set, the loop continues
            runCheck kind cmd keyword (i + 1) fuel success (inv + 1)
              (acts ++ [i]) (some i)
          else
            runCheck kind cmd keyword (i + 1) fuel true (inv + 1) acts (some i)
        else
          -- log attempt, sleep interval, continue
          runCheck kind cmd keyword (i + 1) fuel success (inv + 1) acts (some i)

/-- `Emulator.check_adb_command(readiness_check_type, bash_command,
expected_keyword, max_attempts, interval_waiting_time, adb_action)`.
The diagnostic command's behaviour at attempt `i` is `cmd i`; the loop is
`for _ in range(1, max_attempts)`, i.e. `max_attempts - 1` iterations
starting at `_ = 1`. -/
def check_adb_command (kind : ReadinessCheck) (cmd : Nat → CmdResult)
    (keyword : String) (max_attempts : Nat) : CheckOutcome :=
  runCheck kind cmd keyword 1 (max_attempts - 1) false 0 [] none

/-- Does any of the `n` attempts `i, i+1, ..., i+n-1` match? -/
def matchIn (cmd : Nat → CmdResult) (keyword : String) (i n : Nat) : Bool :=
  (List.range' i n).any (matchesAt cmd keyword)

/-! ## `Emulator.is_initialized`

Source (lines 93-106): if the config file exists, return whether any line
satisfies `re.match(r'hw\.device\.name ?= ?{}'.format(self.device), line)`;
otherwise return `False`.  `re.match` anchors at the *start* of the line
only: the text after the device name is unconstrained, so the requested
name need only be a prefix of the configured value.  The supported device
names (`Emulator.DEVICE`) contain no regex metacharacters, so they are
matched literally. -/

/-- Match a literal character sequence at the head of `s`, returning the
remainder on success. -/
def stripPrefixChars : List Char → List Char → Option (List Char)
  | [], s => some s
  | _ :: _, [] => none
  | p :: ps, c :: cs => if p == c then stripPrefixChars ps cs else none

/-- The regex piece `' ?'` (an optional single space) followed by whatever
comes next: consume at most one leading space. -/
def skipOptSpace : List Char → List Char
  | ' ' :: t => t
  | s => s

/-- `re.match(r'hw\.device\.name ?= ?<device>', line)` as a Boolean, for a
metacharacter-free `device` that does not start with a space (true of every
member of `Emulator.DEVICE`). -/
def hwDeviceLineMatches (device : String) (line : String) : Bool :=
  match stripPrefixChars "hw.device.name".data line.data with
  | none => false
  | some r1 =>
    match skipOptSpace r1 with
    | '=' :: r2 => (stripPrefixChars device.data (skipOptSpace r2)).isSome
    | _ => false

/-- `Emulator.is_initialized`.  `configExists` is
`os.path.exists(self.path_emulator_config)` and `lines` the lines of the
config file when it exists. -/
def is_initialized (configExists : Bool) (lines : List String) (device : String) : Bool :=
  if configExists then lines.any (hwDeviceLineMatches device) else false

/-- The shape `re.match(r'hw\.device\.name ?= ?<device>', line)` accepts,
written as the specification reads it: the line decomposes into the
literal key, an optional space, `=`, an optional space, the requested
device name, and an arbitrary tail.  (This is the spec-side description
used to characterise `is_initialized`; note the arbitrary tail `rest`:
the configured value only needs to *start with* the requested name.) -/
def SpecLineMatch (device line : String) : Prop :=
  ∃ s1 s2 rest, (s1 = "" ∨ s1 = " ") ∧ (s2 = "" ∨ s2 = " ") ∧
    line.data =
      "hw.device.name".data ++ s1.data ++ '=' :: (s2.data ++ (device.data ++ rest))

/-! ## The userdata archiver: `restore` / `backup` / `move_userdata`

Filesystem and process behaviour is supplied by an `FsOps` oracle:
`cpResult src dst` is the exit code of `cp -f -a src dst`,
`existsAfterCopy p` is what `os.path.exists(p)` observes after the copy
step, and `rmResult p` the exit code of `rm -f p`.  `subprocess.run`
without `check=True` never raises on a non-zero exit code, so these
operations are total. -/

/-- `Emulator.userdata_filenames` (line 76). -/
def userdata_filenames : List String :=
  ["userdata.img", "userdata-qemu.img", "userdata-qemu.img.qcow2", "cache.img"]

/-- `os.path.join(dir, f)` for a non-empty `dir` with no trailing slash. -/
def pathJoin (dir f : String) : String := dir ++ "/" ++ f

/-- Oracle for the filesystem/process behaviour seen by the archiver. -/
structure FsOps where
  cpResult : String → String → Int
  existsAfterCopy : String → Bool
  rmResult : String → Int

/-- What `move_userdata` did for one file: the copy command it issued
(source, destination, exit code), whether `rm` was invoked, and the `rm`
exit code when it was. -/
structure MoveTrace where
  file : String
  copySrc : String
  copyDst : String
  copyRc : Int
  deleteAttempted : Bool
  deleteRc : Option Int
  deriving DecidableEq, Repr

/-- The loop body of `Emulator.move_userdata` (lines 130-149) for one
file name: run `cp -f -a <live>/<f> <durable>/<f>` and log its outcome;
then re-derive
`file_path = os.path.join(self.emulator_userdata_path, file_name)` — the
*live* (source) directory — and run `rm -f file_path` exactly when
`os.path.exists(file_path)`.  All failures are logged, never raised. -/
def moveFile (emulator_userdata_path path_user_data : String)
    (ops : FsOps) (file_name : String) : MoveTrace :=
  let source_path := pathJoin emulator_userdata_path file_name
  let destination_path := pathJoin path_user_data file_name
  let copyRc := ops.cpResult source_path destination_path
  -- the existence check is on the live directory, like the source path
  let file_path := pathJoin emulator_userdata_path file_name
  if ops.existsAfterCopy file_path then
    ⟨file_name, source_path, destination_path, copyRc, true,
      some (ops.rmResult file_path)⟩
  else
    ⟨file_name, source_path, destination_path, copyRc, false, none⟩

/-- `Emulator.move_userdata` (lines 128-149): the loop body, over the
four fixed file names. -/
def move_userdata (emulator_userdata_path path_user_data : String)
    (ops : FsOps) : List MoveTrace :=
  userdata_filenames.map (moveFile emulator_userdata_path path_user_data ops)

/-- One `cp -f -a src dst` issued by `backup`/`restore`, with its exit
code (ignored by the source: `subprocess.run` without `check`). -/
structure CopyCmd where
  src : String
  dst : String
  rc : Int
  deriving DecidableEq, Repr

/-- `Emulator.backup` (lines 118-126): copy each of the four userdata
files from the live directory (`self.emulator_userdata_path`) to the
durable store (`self.path_user_data`); exit codes are not inspected and
nothing is raised. -/
def backup (emulator_userdata_path path_user_data : String)
    (ops : FsOps) : List CopyCmd :=
  userdata_filenames.map fun file_name =>
    let source_path := pathJoin emulator_userdata_path file_name
    let destination_path := pathJoin path_user_data file_name
    ⟨source_path, destination_path, ops.cpResult source_path destination_path⟩

/-- `Emulator.tear_down` (lines 292-301): log, unconditionally call
`backup()`, log again and return.  No raising path exists (the shutdown
`check_adb_command` call is commented out in the source). -/
def tear_down (emulator_userdata_path path_user_data : String)
    (ops : FsOps) : List CopyCmd :=
  backup emulator_userdata_path path_user_data ops

/-! ## Construction: `Emulator.__init__`

Lines 44-91.  Validation of the hardware profile (`self.DEVICE`) and the
platform version (`self.API_LEVEL`) happens first; environment variables
are read only afterwards, and the globally shared class counter
`Emulator.adb_name_id` is incremented (by 2) only on the all-validations
path.  `__init__` performs no filesystem or process interaction at all —
`os.path.join` is pure string manipulation — which the embedding records
with an explicit effect trace.

`Device.__init__` (from `src.device`), `get_env_value_or_raise`,
`convert_str_to_bool` (from `src.helper`) and the `ENV` constants (from
`src.constants`) are not under `src/`.  Modelled from the spec:
`Device.__init__` is effect-free state initialization (§2 treats env
loading, logging and path construction as external collaborators);
`get_env_value_or_raise` returns the variable's value or raises when it
is unset (§6: "a work directory root"); the skin toggle's raw
environment value is stored without interpreting it (no claim depends on
its parsed value). -/

/-- Modelled from the spec: the work-directory environment variable of
`src/constants.py` (not under `src/`); §6 names "a work directory root". -/
def ENV_WORK_PATH : String := "WORK_PATH"

/-- Modelled from the spec: the skin-suppression toggle variable of
`src/constants.py` (not under `src/`). -/
def ENV_EMULATOR_NO_SKIN : String := "EMULATOR_NO_SKIN"

/-- Modelled from the spec: screen-geometry variables of
`src/constants.py` (not under `src/`); §6 names "screen geometry". -/
def ENV_SCREEN_WIDTH : String := "SCREEN_WIDTH"

/-- Modelled from the spec: see `ENV_SCREEN_WIDTH`. -/
def ENV_SCREEN_HEIGHT : String := "SCREEN_HEIGHT"

/-- Modelled from the spec: see `ENV_SCREEN_WIDTH`. -/
def ENV_SCREEN_DEPTH : String := "SCREEN_DEPTH"

/-- An externally visible effect of `__init__`.  Only environment reads
occur in the source; filesystem and process effects are representable so
that their absence is a statement, not a modelling artifact. -/
inductive Effect
  | envRead (name : String)
  | fsOp (description : String)
  | procOp (description : String)
  deriving DecidableEq, Repr

/-- `Emulator.DEVICE` (lines 14-26). -/
def DEVICE : List String :=
  ["Nexus 4", "Nexus 5", "Nexus 7", "Nexus One", "Nexus S",
   "Samsung Galaxy S6", "Samsung Galaxy S7", "Samsung Galaxy S7 Edge",
   "Samsung Galaxy S8", "Samsung Galaxy S9", "Samsung Galaxy S10"]

/-- `Emulator.API_LEVEL` (lines 28-34). -/
def API_LEVEL : List (String × String) :=
  [("9.0", "28"), ("10.0", "29"), ("11.0", "30"), ("12.0", "32"), ("13.0", "33")]

/-- Initial value of the class attribute `Emulator.adb_name_id` (line 36). -/
def adb_name_id_init : Nat := 5554

/-- `self.file_name = self.device.replace(" ", "_").lower()` (line 78). -/
def pyFileName (device : String) : String :=
  lowerStr ⟨device.data.map fun c => if c == ' ' then '_' else c⟩

/-- The arguments of `Emulator.__init__`. -/
structure InitArgs where
  name : String
  device : String
  android_version : String
  data_partition : String
  additional_args : String
  img_type : String
  sys_img : String
  deriving DecidableEq, Repr

/-- The fields of a constructed `Emulator` that the claims mention.
`adb_id` is the counter value `self.adb_name` was derived from. -/
structure EmulatorRec where
  adb_id : Nat
  adb_name : String
  name : String
  device : String
  android_version : String
  api_level : String
  data_partition : String
  additional_args : String
  img_type : String
  sys_img : String
  workdir : String
  path_emulator : String
  path_emulator_config : String
  file_name : String
  no_skin_env : Option String
  interval_after_booting : Nat
  deriving DecidableEq, Repr

/-- `Emulator.__init__` over an explicit environment and the shared class
counter.  Returns the construction result, the new counter value, and the
trace of effects performed (environment reads only; the source performs
no filesystem or process interaction during construction). -/
def emulatorInit (env : String → Option String) (counter : Nat) (a : InitArgs) :
    Except String EmulatorRec × Nat × List Effect :=
  -- line 48: adb_name reads the counter before any increment
  let adb_name := "emulator-" ++ toString counter
  if a.device ∈ DEVICE then
    match API_LEVEL.lookup a.android_version with
    | none =>
      -- line 58: raised before any env read and before the increment
      (.error ("android version '" ++ a.android_version ++ "' is not supported!"),
       counter, [])
    | some api_level =>
      match env ENV_WORK_PATH with
      | none =>
        -- line 64: get_env_value_or_raise raises; counter still untouched
        (.error ("environment variable '" ++ ENV_WORK_PATH ++ "' is not set!"),
         counter, [.envRead ENV_WORK_PATH])
      | some workdir =>
        -- lines 65-91: pure path joins, env reads, and the line-81 increment
        (.ok { adb_id := counter
               adb_name := adb_name
               name := a.name
               device := a.device
               android_version := a.android_version
               api_level := api_level
               data_partition := a.data_partition
               additional_args := a.additional_args
               img_type := a.img_type
               sys_img := a.sys_img
               workdir := workdir
               path_emulator := pathJoin workdir "emulator"
               path_emulator_config := pathJoin (pathJoin workdir "emulator") "config.ini"
               file_name := pyFileName a.device
               no_skin_env := env ENV_EMULATOR_NO_SKIN
               interval_after_booting := 15 },
         counter + 2,
         [.envRead ENV_WORK_PATH, .envRead ENV_EMULATOR_NO_SKIN,
          .envRead ENV_SCREEN_WIDTH, .envRead ENV_SCREEN_HEIGHT,
          .envRead ENV_SCREEN_DEPTH])
  else
    -- line 54: raised before any env read and before the increment
    (.error ("device '" ++ a.device ++ "' is not supported!"), counter, [])

/-- A sequence of constructions sharing the class counter: the results in
order, and the final counter value. -/
def initSeq (env : String → Option String) : Nat → List InitArgs →
    List (Except String EmulatorRec) × Nat
  | c, [] => ([], c)
  | c, a :: rest =>
    let r := emulatorInit env c a
    let t := initSeq env r.2.1 rest
    (r.1 :: t.1, t.2)

/-- The control-channel identifiers assigned by the successful
constructions of a sequence, in order. -/
def assignedIds (env : String → Option String) (c : Nat) (args : List InitArgs) :
    List Nat :=
  (initSeq env c args).1.filterMap fun r =>
    match r with
    | .ok e => some e.adb_id
    | .error _ => none

/-- `c, c+2, c+4, ...` of length `n` (the shape `assignedIds` takes). -/
def arithSeq (c : Nat) : Nat → List Nat
  | 0 => []
  | n + 1 => c :: arithSeq (c + 2) n

/-! ## Lemmas about the readiness poller -/

/-- With the `success` flag set, the next iteration `break`s at once. -/
theorem runCheck_true (kind : ReadinessCheck) (cmd : Nat → CmdResult) (kw : String)
    (fuel i inv : Nat) (acts : List Nat) (n : Nat) :
    runCheck kind cmd kw i fuel true inv acts (some n) =
      if fuel = 0 then ⟨forElse kind (some n), inv, acts⟩ else ⟨.normal, inv, acts⟩ := by
  cases fuel with
  | zero => simp [runCheck]
  | succ f => simp [runCheck]

/-- For `POP_UP_WINDOW` the `success` flag is never set: the loop always
runs to exhaustion, invoking the diagnostic command once per iteration,
running the remedial action exactly on the matching attempts, and ending
in the (non-raising) `for`/`else` branch. -/
theorem runCheck_popup (cmd : Nat → CmdResult) (kw : String) :
    ∀ fuel i inv acts last,
      runCheck .popUpWindow cmd kw i fuel false inv acts last =
        ⟨.normal, inv + fuel, acts ++ (List.range' i fuel).filter (matchesAt cmd kw)⟩ := by
  intro fuel
  induction fuel with
  | zero => intro i inv acts last; simp [runCheck, forElse]
  | succ f ih =>
    intro i inv acts last
    rw [List.range'_succ]
    show (match cmd i with
      | CmdResult.err => runCheck .popUpWindow cmd kw (i + 1) f false (inv + 1) acts (some i)
      | CmdResult.ok out =>
        if strContains (lowerStr out) kw then
          runCheck .popUpWindow cmd kw (i + 1) f false (inv + 1) (acts ++ [i]) (some i)
        else
          runCheck .popUpWindow cmd kw (i + 1) f false (inv + 1) acts (some i)) = _
    cases h : cmd i with
    | err =>
      rw [ih]
      have hm : matchesAt cmd kw i = false := by simp [matchesAt, h]
      simp [hm, List.filter_cons]
      omega
    | ok out =>
      cases hc : strContains (lowerStr out) kw with
      | false =>
        have hm : matchesAt cmd kw i = false := by simp [matchesAt, h, hc]
        simp only [if_neg (by simp [hc] : ¬ strContains (lowerStr out) kw = true)]
        rw [ih]
        simp [hm, List.filter_cons]
        omega
      | true =>
        have hm : matchesAt cmd kw i = true := by simp [matchesAt, h, hc]
        simp only [if_pos hc]
        rw [ih]
        simp [hm, List.filter_cons]
        omega

/-- For a required (non-pop-up) kind, the loop's result: with no fuel the
`for`/`else` fires on the saved loop variable; otherwise the call returns
normally exactly when one of the first `fuel - 1` attempts matches, and
raises the exhaustion `RuntimeError` otherwise — in particular a match on
the *final* iteration still raises, because the `break` is only reached
at the start of the following iteration. -/
theorem runCheck_nonpopup_result (kind : ReadinessCheck) (hk : kind ≠ .popUpWindow)
    (cmd : Nat → CmdResult) (kw : String) :
    ∀ fuel i inv acts last,
      (runCheck kind cmd kw i fuel false inv acts last).result =
        if fuel = 0 then forElse kind last
        else if matchIn cmd kw i (fuel - 1) then .normal
        else .runtimeErr (i + fuel - 1) := by
  intro fuel
  induction fuel with
  | zero => intro i inv acts last; simp [runCheck]
  | succ f ih =>
    intro i inv acts last
    show (match cmd i with
      | CmdResult.err => runCheck kind cmd kw (i + 1) f false (inv + 1) acts (some i)
      | CmdResult.ok out =>
        if strContains (lowerStr out) kw then
          if kind = ReadinessCheck.popUpWindow then
            runCheck kind cmd kw (i + 1) f false (inv + 1) (acts ++ [i]) (some i)
          else
            runCheck kind cmd kw (i + 1) f true (inv + 1) acts (some i)
        else
          runCheck kind cmd kw (i + 1) f false (inv + 1) acts (some i)).result = _
    cases h : cmd i with
    | err =>
      rw [ih]
      have hm : matchesAt cmd kw i = false := by simp [matchesAt, h]
      cases f with
      | zero => simp [forElse, hk, matchIn]
      | succ f' =>
        have : matchIn cmd kw i (f' + 1) = matchIn cmd kw (i + 1) f' := by
          simp [matchIn, List.range'_succ, hm]
        simp only [Nat.succ_ne_zero, if_false, Nat.succ_sub_one, this]
        have harith : i + 1 + (f' + 1) - 1 = i + (f' + 1 + 1) - 1 := by omega
        rw [harith]
    | ok out =>
      cases hc : strContains (lowerStr out) kw with
      | false =>
        have hm : matchesAt cmd kw i = false := by simp [matchesAt, h, hc]
        simp only [if_neg (by simp [hc] : ¬ strContains (lowerStr out) kw = true)]
        rw [ih]
        cases f with
        | zero => simp [forElse, hk, matchIn]
        | succ f' =>
          have : matchIn cmd kw i (f' + 1) = matchIn cmd kw (i + 1) f' := by
            simp [matchIn, List.range'_succ, hm]
          simp only [Nat.succ_ne_zero, if_false, Nat.succ_sub_one, this]
          have harith : i + 1 + (f' + 1) - 1 = i + (f' + 1 + 1) - 1 := by omega
          rw [harith]
      | true =>
        have hm : matchesAt cmd kw i = true := by simp [matchesAt, h, hc]
        simp only [if_pos hc, if_neg hk]
        rw [runCheck_true]
        cases f with
        | zero => simp [forElse, hk, matchIn]
        | succ f' =>
          have : matchIn cmd kw i (f' + 1) = true := by
            simp [matchIn, List.range'_succ, hm]
          simp [this]

/-- When no attempt ever matches, the loop runs to exhaustion for every
kind: one diagnostic invocation per iteration, no action, no success. -/
theorem runCheck_nomatch (kind : ReadinessCheck) (cmd : Nat → CmdResult) (kw : String)
    (h : ∀ j, matchesAt cmd kw j = false) :
    ∀ fuel i inv acts last,
      runCheck kind cmd kw i fuel false inv acts last =
        ⟨forElse kind (if fuel = 0 then last else some (i + fuel - 1)),
          inv + fuel, acts⟩ := by
  intro fuel
  induction fuel with
  | zero => intro i inv acts last; simp [runCheck]
  | succ f ih =>
    intro i inv acts last
    show (match cmd i with
      | CmdResult.err => runCheck kind cmd kw (i + 1) f false (inv + 1) acts (some i)
      | CmdResult.ok out =>
        if strContains (lowerStr out) kw then
          if kind = ReadinessCheck.popUpWindow then
            runCheck kind cmd kw (i + 1) f false (inv + 1) (acts ++ [i]) (some i)
          else
            runCheck kind cmd kw (i + 1) f true (inv + 1) acts (some i)
        else
          runCheck kind cmd kw (i + 1) f false (inv + 1) acts (some i)) = _
    have step : runCheck kind cmd kw (i + 1) f false (inv + 1) acts (some i) =
        ⟨forElse kind (if f + 1 = 0 then last else some (i + (f + 1) - 1)),
          inv + (f + 1), acts⟩ := by
      rw [ih]
      have harith : (if f = 0 then some i else some (i + 1 + f - 1)) =
          some (i + (f + 1) - 1) := by
        cases f with
        | zero => simp
        | succ f' => simp; omega
      rw [harith]
      simp only [Nat.succ_ne_zero, if_false]
      congr 1
      omega
    cases hcmd : cmd i with
    | err => exact step
    | ok out =>
      have hc : strContains (lowerStr out) kw = false := by
        have := h i
        simp [matchesAt, hcmd] at this
        exact this
      simp only [hc]
      simpa using step

/-! ## Claim C1 -/

/-- C1 counterexample: with kind `POP_UP_WINDOW`, keyword
`"Not Responding: com.android.systemui"` and a diagnostic output that
literally contains that keyword, the claimed behaviour — remedial action
executed, immediate success, no further polling — does not occur: the
keyword contains upper-case letters while the output is lowercased before
the substring test, so the match never fires (no action runs), and the
call polls for the full reduced budget (2 invocations at
`max_attempts = 3`). -/
theorem popup_systemui_counterexample :
    strContains
      "mCurrentFocus=Waiting For Debugger: Not Responding: com.android.systemui"
      "Not Responding: com.android.systemui" = true ∧
    check_adb_command .popUpWindow
      (fun _ => CmdResult.ok
        "mCurrentFocus=Waiting For Debugger: Not Responding: com.android.systemui")
      "Not Responding: com.android.systemui" 3 =
      ⟨.normal, 2, []⟩ := by
  constructor
  · decide
  · decide

/-- C1 (amended): for kind `POP_UP_WINDOW`, when attempt `i`'s lowercased
output contains the raw keyword, the remedial action is executed on that
attempt, but the call is *not* treated as a success: the `success` flag is
never set, polling continues for the whole reduced budget
(`max_attempts - 1` diagnostic invocations), and the call ends through the
non-raising `for`/`else` branch. -/
theorem popup_match_runs_action_but_polling_continues
    (cmd : Nat → CmdResult) (kw : String) (m i : Nat)
    (h1 : 1 ≤ i) (h2 : i ≤ m - 1) (hm : matchesAt cmd kw i = true) :
    (check_adb_command .popUpWindow cmd kw m).result = .normal ∧
    (check_adb_command .popUpWindow cmd kw m).invocations = m - 1 ∧
    i ∈ (check_adb_command .popUpWindow cmd kw m).actionAttempts := by
  unfold check_adb_command
  rw [runCheck_popup]
  refine ⟨rfl, by simp, ?_⟩
  simp only [List.nil_append]
  rw [List.mem_filter]
  exact ⟨List.mem_range'_1.mpr ⟨h1, by omega⟩, hm⟩

/-- Witness for `popup_match_runs_action_but_polling_continues` at a
concrete matching input. -/
theorem popup_match_runs_action_but_polling_continues_witness :
    (check_adb_command .popUpWindow (fun _ => CmdResult.ok "xLauncherx")
      "launcher" 3).result = .normal ∧
    (check_adb_command .popUpWindow (fun _ => CmdResult.ok "xLauncherx")
      "launcher" 3).invocations = 3 - 1 ∧
    1 ∈ (check_adb_command .popUpWindow (fun _ => CmdResult.ok "xLauncherx")
      "launcher" 3).actionAttempts :=
  popup_match_runs_action_but_polling_continues
    (fun _ => CmdResult.ok "xLauncherx") "launcher" 3 1
    (by decide) (by decide) (by decide)

/-! ## Claim C2 -/

/-- C2 counterexample: a required (`BOOTED`) check whose keyword matches on
the final executed attempt (attempt 2 of a `max_attempts = 3` budget)
still raises the exhaustion `RuntimeError`: the `break` that would skip
the `for`/`else` is only reached at the start of the *next* iteration,
which never runs. -/
theorem required_check_match_on_last_attempt_raises :
    matchesAt (fun i => if i == 2 then CmdResult.ok "1" else CmdResult.ok "0") "1" 2
      = true ∧
    check_adb_command .booted
      (fun i => if i == 2 then CmdResult.ok "1" else CmdResult.ok "0") "1" 3 =
      ⟨.runtimeErr 2, 2, []⟩ := by
  constructor
  · decide
  · decide

/-- C2 (amended): a `POP_UP_WINDOW` check never raises, whatever the
budget and the diagnostic outcomes.  A required (non-pop-up) check with
`max_attempts ≥ 2` returns normally exactly when a match occurs on one of
the attempts `1 .. max_attempts - 2` (strictly before the final executed
attempt), and raises the exhaustion `RuntimeError` naming
`max_attempts - 1` attempts otherwise — in particular also when the match
happens on the final executed attempt `max_attempts - 1`. -/
theorem check_exhaustion_behavior (cmd : Nat → CmdResult) (kw : String) (m : Nat) :
    (check_adb_command .popUpWindow cmd kw m).result = .normal ∧
    (∀ kind, kind ≠ .popUpWindow → 2 ≤ m →
      ((check_adb_command kind cmd kw m).result = .normal ↔
        matchIn cmd kw 1 (m - 2) = true) ∧
      (matchIn cmd kw 1 (m - 2) = false →
        (check_adb_command kind cmd kw m).result = .runtimeErr (m - 1))) := by
  constructor
  · unfold check_adb_command
    rw [runCheck_popup]
  · intro kind hk hm
    unfold check_adb_command
    rw [runCheck_nonpopup_result kind hk]
    have h1 : ¬ (m - 1 = 0) := by omega
    have h2 : m - 1 - 1 = m - 2 := by omega
    have h3 : 1 + (m - 1) - 1 = m - 1 := by omega
    rw [if_neg h1, h2, h3]
    cases hmi : matchIn cmd kw 1 (m - 2) with
    | true => simp
    | false => simp

/-- Witness for `check_exhaustion_behavior` at a concrete never-matching
input: the required `BOOTED` check with budget 3 raises after 2 checks. -/
theorem check_exhaustion_behavior_witness :
    (check_adb_command .booted (fun _ => CmdResult.ok "0") "1" 3).result =
      .runtimeErr (3 - 1) :=
  ((check_exhaustion_behavior (fun _ => CmdResult.ok "0") "1" 3).2 .booted
    (by decide) (by decide)).2 (by decide)

/-! ## Claim C4 -/

/-- C4: when the diagnostic command always succeeds and never reports the
keyword, `check_adb_command` invokes it exactly `max_attempts - 1` times
before taking the exhaustion branch; for a required (non-pop-up) kind with
`max_attempts ≥ 2` that branch raises the exhaustion `RuntimeError`
reporting `max_attempts - 1` attempts — with `max_attempts = 3`, exactly
2 invocations. -/
theorem required_check_invokes_budget_minus_one
    (kind : ReadinessCheck) (cmd : Nat → CmdResult) (kw : String) (m : Nat)
    (hok : ∀ j, cmd j ≠ CmdResult.err)
    (hnm : ∀ j, matchesAt cmd kw j = false) :
    (check_adb_command kind cmd kw m).invocations = m - 1 ∧
    (kind ≠ .popUpWindow → 2 ≤ m →
      (check_adb_command kind cmd kw m).result = .runtimeErr (m - 1)) := by
  unfold check_adb_command
  rw [runCheck_nomatch kind cmd kw hnm]
  refine ⟨by simp, ?_⟩
  intro hk hm
  have h1 : ¬ (m - 1 = 0) := by omega
  rw [if_neg h1]
  have h3 : 1 + (m - 1) - 1 = m - 1 := by omega
  simp [forElse, hk, h3]

/-- Witness for `required_check_invokes_budget_minus_one`: `BOOTED` with
budget 3 and an always-successful, never-matching command is invoked
exactly twice and raises. -/
theorem required_check_invokes_budget_minus_one_witness :
    (check_adb_command .booted (fun _ => CmdResult.ok "zzz")
      "launcheractivity" 3).invocations = 3 - 1 ∧
    (ReadinessCheck.booted ≠ .popUpWindow → 2 ≤ 3 →
      (check_adb_command .booted (fun _ => CmdResult.ok "zzz")
        "launcheractivity" 3).result = .runtimeErr (3 - 1)) :=
  required_check_invokes_budget_minus_one .booted
    (fun _ => CmdResult.ok "zzz") "launcheractivity" 3
    (fun _ => (by decide : CmdResult.ok "zzz" ≠ CmdResult.err))
    (fun _ => (by decide : strContains (lowerStr "zzz") "launcheractivity" = false))

/-! ## Claim C9 -/

/-- C9: with `max_attempts ≤ 1`, `range(1, max_attempts)` is empty: the
loop body never runs and the diagnostic command is never invoked; for a
required (non-pop-up) kind the `for`/`else` then references the
never-assigned loop variable `_`, so the call fails with an unbound-local
error instead of the documented exhaustion `RuntimeError`. -/
theorem check_empty_budget_unbound_loop_variable
    (kind : ReadinessCheck) (cmd : Nat → CmdResult) (kw : String) (m : Nat)
    (hm : m ≤ 1) :
    (check_adb_command kind cmd kw m).invocations = 0 ∧
    (kind ≠ .popUpWindow →
      (check_adb_command kind cmd kw m).result = .nameErr) := by
  have h0 : m - 1 = 0 := by omega
  unfold check_adb_command
  rw [h0]
  refine ⟨rfl, ?_⟩
  intro hk
  simp [runCheck, forElse, hk]

/-- Witness for `check_empty_budget_unbound_loop_variable` at
`max_attempts = 1`, kind `BOOTED`. -/
theorem check_empty_budget_unbound_loop_variable_witness :
    (check_adb_command .booted (fun _ => CmdResult.ok "1") "1" 1).invocations = 0 ∧
    (ReadinessCheck.booted ≠ .popUpWindow →
      (check_adb_command .booted (fun _ => CmdResult.ok "1") "1" 1).result =
        .nameErr) :=
  check_empty_budget_unbound_loop_variable .booted
    (fun _ => CmdResult.ok "1") "1" 1 (by decide)

/-! ## Lemmas about `is_initialized` -/

/-- `stripPrefixChars` succeeds exactly on lists with the literal prefix,
returning the remainder. -/
theorem stripPrefixChars_eq_some (p : List Char) :
    ∀ s r, stripPrefixChars p s = some r ↔ s = p ++ r := by
  induction p with
  | nil => intro s r; simp [stripPrefixChars]
  | cons p ps ih =>
    intro s r
    cases s with
    | nil => simp [stripPrefixChars]
    | cons c cs =>
      simp only [stripPrefixChars]
      cases hb : (p == c) with
      | true =>
        obtain rfl : p = c := eq_of_beq hb
        simp [ih]
      | false =>
        have hne : p ≠ c := ne_of_beq_false hb
        simp only [Bool.false_eq_true, if_false]
        constructor
        · intro h; cases h
        · intro h
          exact absurd (List.cons.injEq .. ▸ congrArg id h).1.symm hne

/-- `isSome` form of `stripPrefixChars_eq_some`. -/
theorem stripPrefixChars_isSome (p s : List Char) :
    (stripPrefixChars p s).isSome = true ↔ ∃ r, s = p ++ r := by
  cases h : stripPrefixChars p s with
  | none =>
    simp only [Option.isSome_none, Bool.false_eq_true, false_iff]
    rintro ⟨r, hr⟩
    have := (stripPrefixChars_eq_some p s r).mpr hr
    rw [h] at this
    cases this
  | some r =>
    simp only [Option.isSome_some, true_iff]
    exact ⟨r, (stripPrefixChars_eq_some p s r).mp h⟩

/-- The part of the line after `=`: the regex `' ?<device>'` accepts `r2`
exactly when `r2` is an optional space, then the device name, then
anything — provided the device name does not itself start with a space
(true of every supported profile). -/
theorem tailMatch_iff (device : String) (hd : device.data.head? ≠ some ' ')
    (r2 : List Char) :
    (stripPrefixChars device.data (skipOptSpace r2)).isSome = true ↔
      ∃ s2 rest, (s2 = "" ∨ s2 = " ") ∧ r2 = s2.data ++ (device.data ++ rest) := by
  have hspace : (" " : String).data = [' '] := rfl
  have hempty : ("" : String).data = [] := rfl
  cases r2 with
  | nil =>
    rw [show skipOptSpace [] = [] from rfl, stripPrefixChars_isSome]
    constructor
    · rintro ⟨r, hr⟩
      rw [List.nil_eq_append] at hr
      exact ⟨"", [], Or.inl rfl, by simp [hempty, hr.1]⟩
    · rintro ⟨s2, rest, hs2, h⟩
      rcases hs2 with rfl | rfl
      · rw [hempty, List.nil_append, List.nil_eq_append] at h
        exact ⟨rest, by rw [h.1]; simp [h.2]⟩
      · rw [hspace] at h; cases h
  | cons c u =>
    by_cases hc : c = ' '
    · subst hc
      rw [show skipOptSpace (' ' :: u) = u from rfl, stripPrefixChars_isSome]
      constructor
      · rintro ⟨r, hr⟩
        exact ⟨" ", r, Or.inr rfl, by rw [hspace]; simp [hr]⟩
      · rintro ⟨s2, rest, hs2, h⟩
        rcases hs2 with rfl | rfl
        · rw [hempty, List.nil_append] at h
          cases hdev : device.data with
          | nil => exact ⟨u, by simp [hdev]⟩
          | cons d dv =>
            rw [hdev] at h
            have : d = ' ' := (List.cons.injEq .. ▸ congrArg id h).1.symm
            rw [hdev, this] at hd
            simp at hd
        · rw [hspace, List.singleton_append] at h
          have : u = device.data ++ rest := (List.cons.injEq .. ▸ congrArg id h).2
          exact ⟨rest, this⟩
    · have hskip : skipOptSpace (c :: u) = c :: u := by
        unfold skipOptSpace
        split
        next t heq =>
          injection heq with h1 _
          exact absurd h1 hc
        next => rfl
      rw [hskip, stripPrefixChars_isSome]
      constructor
      · rintro ⟨r, hr⟩
        exact ⟨"", r, Or.inl rfl, by rw [hempty]; simpa using hr⟩
      · rintro ⟨s2, rest, hs2, h⟩
        rcases hs2 with rfl | rfl
        · rw [hempty, List.nil_append] at h
          exact ⟨rest, h⟩
        · rw [hspace, List.singleton_append] at h
          have : c = ' ' := (List.cons.injEq .. ▸ congrArg id h).1
          exact absurd this hc

/-- `skipOptSpace` produces a list headed by a non-space `d` exactly from
that list or from it with one extra leading space. -/
theorem skipOptSpace_eq_cons (r1 : List Char) (d : Char) (hdd : d ≠ ' ')
    (r2 : List Char) :
    skipOptSpace r1 = d :: r2 ↔ (r1 = d :: r2 ∨ r1 = ' ' :: d :: r2) := by
  cases r1 with
  | nil =>
    rw [show skipOptSpace [] = [] from rfl]
    constructor
    · intro h; cases h
    · rintro (h | h) <;> cases h
  | cons c u =>
    by_cases hc : c = ' '
    · subst hc
      rw [show skipOptSpace (' ' :: u) = u from rfl]
      constructor
      · intro h; right; rw [h]
      · rintro (h | h)
        · injection h with h1 _
          exact absurd h1.symm hdd
        · exact (List.cons.injEq .. ▸ congrArg id h).2
    · have hskip : skipOptSpace (c :: u) = c :: u := by
        unfold skipOptSpace
        split
        next t heq =>
          injection heq with h1 _
          exact absurd h1 hc
        next => rfl
      rw [hskip]
      constructor
      · intro h; exact Or.inl h
      · rintro (h | h)
        · exact h
        · injection h with h1 _
          exact absurd h1 hc

/-- The Boolean matcher of `is_initialized` accepts a line exactly when
the line decomposes as the specification describes
(`re.match(r'hw\.device\.name ?= ?<device>', line)` succeeds), for any
requested device name not starting with a space. -/
theorem hwDeviceLineMatches_iff (device line : String)
    (hd : device.data.head? ≠ some ' ') :
    hwDeviceLineMatches device line = true ↔ SpecLineMatch device line := by
  unfold hwDeviceLineMatches
  split
  next h1 =>
    simp only [Bool.false_eq_true, false_iff]
    rintro ⟨s1, s2, rest, hs1, hs2, hline⟩
    have h2 : stripPrefixChars "hw.device.name".data line.data =
        some (s1.data ++ '=' :: (s2.data ++ (device.data ++ rest))) :=
      (stripPrefixChars_eq_some _ _ _).mpr hline
    rw [h1] at h2
    cases h2
  next r1 h1 =>
    have hline : line.data = "hw.device.name".data ++ r1 :=
      (stripPrefixChars_eq_some _ _ _).mp h1
    have hspec : SpecLineMatch device line ↔
        ∃ s2 rest, (s2 = "" ∨ s2 = " ") ∧
          skipOptSpace r1 = '=' :: (s2.data ++ (device.data ++ rest)) := by
      unfold SpecLineMatch
      constructor
      · rintro ⟨s1, s2, rest, hs1, hs2, h⟩
        refine ⟨s2, rest, hs2, ?_⟩
        have hr1 : r1 = s1.data ++ '=' :: (s2.data ++ (device.data ++ rest)) := by
          have h2 : "hw.device.name".data ++ r1 =
              "hw.device.name".data ++
                (s1.data ++ '=' :: (s2.data ++ (device.data ++ rest))) := by
            rw [← hline, h, List.append_assoc]
          exact List.append_cancel_left h2
        rw [skipOptSpace_eq_cons _ _ (by decide) _]
        rcases hs1 with rfl | rfl
        · left; simpa using hr1
        · right; simpa using hr1
      · rintro ⟨s2, rest, hs2, h⟩
        rw [skipOptSpace_eq_cons _ _ (by decide) _] at h
        rcases h with h | h
        · refine ⟨"", s2, rest, Or.inl rfl, hs2, ?_⟩
          rw [hline, h,
            show ("" : String).data = [] from rfl, List.append_nil]
        · refine ⟨" ", s2, rest, Or.inr rfl, hs2, ?_⟩
          rw [hline, h,
            show (" " : String).data = [' '] from rfl, List.append_assoc]
          rfl
    rw [hspec]
    split
    next r2 heq =>
      rw [tailMatch_iff device hd r2, heq]
      constructor
      · rintro ⟨s2, rest, hs2, h⟩
        exact ⟨s2, rest, hs2, by rw [h]⟩
      · rintro ⟨s2, rest, hs2, h⟩
        injection h with _ h2
        exact ⟨s2, rest, hs2, h2⟩
    next hno =>
      simp only [Bool.false_eq_true, false_iff]
      rintro ⟨s2, rest, hs2, h⟩
      exact hno _ h

/-! ## Claim C3 -/

/-- C3 counterexample: the claim's own example fails on the code.  With
requested device `"Samsung Galaxy S7"` and a config file whose
hardware-name line assigns the different supported profile
`"Samsung Galaxy S7 Edge"`, `is_initialized` returns `true` (the claim
demands `false`): `re.match` only anchors at the start of the line, so the
requested name need only be a prefix of the configured value. -/
theorem is_initialized_prefix_counterexample :
    is_initialized true ["hw.device.name=Samsung Galaxy S7 Edge"]
      "Samsung Galaxy S7" = true ∧
    "Samsung Galaxy S7" ∈ DEVICE ∧
    "Samsung Galaxy S7 Edge" ∈ DEVICE ∧
    "Samsung Galaxy S7" ≠ "Samsung Galaxy S7 Edge" := by
  refine ⟨by decide, by decide, by decide, by decide⟩

/-- C3 (amended): for every supported requested device, `is_initialized`
returns true iff the config file exists and some line matches
`hw.device.name ?= ?` followed by the requested hardware-profile name *as
a prefix of the configured value* (arbitrary text may follow); a config
line naming an extension of the requested profile (e.g. "Samsung Galaxy
S7 Edge" when "Samsung Galaxy S7" is requested) therefore yields true,
not false. -/
theorem is_initialized_iff (configExists : Bool) (lines : List String)
    (device : String) (hdev : device ∈ DEVICE) :
    is_initialized configExists lines device = true ↔
      configExists = true ∧ ∃ line ∈ lines, SpecLineMatch device line := by
  have hd : device.data.head? ≠ some ' ' := by
    fin_cases hdev <;> decide
  unfold is_initialized
  cases configExists with
  | false => simp
  | true =>
    simp only [if_true, true_and, show (true = true) = True from by simp]
    rw [List.any_eq_true]
    constructor
    · rintro ⟨line, hmem, hmatch⟩
      exact ⟨line, hmem, (hwDeviceLineMatches_iff device line hd).mp hmatch⟩
    · rintro ⟨line, hmem, hspec⟩
      exact ⟨line, hmem, (hwDeviceLineMatches_iff device line hd).mpr hspec⟩

/-- Witness for `is_initialized_iff` at a concrete supported device. -/
theorem is_initialized_iff_witness :
    is_initialized true ["hw.device.name=Nexus 5"] "Nexus 5" = true ↔
      true = true ∧
        ∃ line ∈ ["hw.device.name=Nexus 5"], SpecLineMatch "Nexus 5" line :=
  is_initialized_iff true ["hw.device.name=Nexus 5"] "Nexus 5" (by decide)

/-! ## Claim C5 -/

/-- What one iteration of `move_userdata` does, as a function of the
oracle: the copy goes live → durable; the delete fires exactly when the
*live* path exists after the copy step; when it does not fire, no `rm`
runs.  All outcomes are recorded (logged), none raised. -/
theorem moveFile_spec (live durable : String) (ops : FsOps) (f : String) :
    (moveFile live durable ops f).file = f ∧
    (moveFile live durable ops f).copySrc = pathJoin live f ∧
    (moveFile live durable ops f).copyDst = pathJoin durable f ∧
    (moveFile live durable ops f).copyRc =
      ops.cpResult (pathJoin live f) (pathJoin durable f) ∧
    (moveFile live durable ops f).deleteAttempted =
      ops.existsAfterCopy (pathJoin live f) ∧
    ((moveFile live durable ops f).deleteAttempted = false →
      (moveFile live durable ops f).deleteRc = none) := by
  unfold moveFile
  by_cases h : ops.existsAfterCopy (pathJoin live f) = true
  · simp [h]
  · simp only [Bool.not_eq_true] at h
    simp [h]

/-- C5 counterexample: `move_userdata`'s pre-delete existence check is on
the *live* (source) path, not the destination.  With an oracle on which
only the live copy `work/emulator/userdata.img` exists after the copy
step (the destination `work/userdata/userdata.img` does not — a silent
copy failure with exit code 0), the live file is deleted anyway, contrary
to the claim's "delete iff the destination file is observed to exist". -/
theorem move_userdata_checks_source_counterexample :
    (move_userdata "work/emulator" "work/userdata"
        ⟨fun _ _ => 0, fun p => p == "work/emulator/userdata.img", fun _ => 0⟩).head? =
      some ⟨"userdata.img", "work/emulator/userdata.img",
        "work/userdata/userdata.img", 0, true, some 0⟩ ∧
    (⟨fun _ _ => 0, fun p => p == "work/emulator/userdata.img",
        fun _ => 0⟩ : FsOps).existsAfterCopy "work/userdata/userdata.img" = false := by
  refine ⟨by decide, by decide⟩

/-- C5 (amended): for each of the four fixed userdata file names,
`move_userdata` deletes the live copy if and only if the *live (source)*
file is observed to exist on the filesystem after the copy step — not the
destination file; it never deletes a file that does not exist at that
moment, and copy and delete failures are recorded per file (the operation
is total: it continues over all four files and raises nothing). -/
theorem move_userdata_delete_iff_live_exists
    (live durable : String) (ops : FsOps) :
    (move_userdata live durable ops).map MoveTrace.file = userdata_filenames ∧
    ∀ t ∈ move_userdata live durable ops,
      t.copySrc = pathJoin live t.file ∧
      t.copyDst = pathJoin durable t.file ∧
      t.copyRc = ops.cpResult (pathJoin live t.file) (pathJoin durable t.file) ∧
      t.deleteAttempted = ops.existsAfterCopy (pathJoin live t.file) ∧
      (t.deleteAttempted = false → t.deleteRc = none) := by
  constructor
  · unfold move_userdata
    rw [List.map_map]
    have hf : ∀ f, (MoveTrace.file ∘ moveFile live durable ops) f = f :=
      fun f => (moveFile_spec live durable ops f).1
    calc userdata_filenames.map (MoveTrace.file ∘ moveFile live durable ops)
        = userdata_filenames.map id := List.map_congr_left fun f _ => hf f
      _ = userdata_filenames := List.map_id _
  · intro t ht
    unfold move_userdata at ht
    rw [List.mem_map] at ht
    obtain ⟨f, _, rfl⟩ := ht
    obtain ⟨h1, h2, h3, h4, h5, h6⟩ := moveFile_spec live durable ops f
    rw [h1]
    exact ⟨h2, h3, h4, h5, h6⟩

/-- Witness for `move_userdata_delete_iff_live_exists` at a concrete
oracle and the first file of the list. -/
theorem move_userdata_delete_iff_live_exists_witness :
    (move_userdata "e" "u" ⟨fun _ _ => 1, fun _ => false, fun _ => 0⟩).map
        MoveTrace.file = userdata_filenames ∧
    ((⟨"userdata.img", "e/userdata.img", "u/userdata.img", 1, false, none⟩ :
        MoveTrace).copySrc = pathJoin "e" "userdata.img" ∧
      (⟨"userdata.img", "e/userdata.img", "u/userdata.img", 1, false, none⟩ :
        MoveTrace).copyDst = pathJoin "u" "userdata.img" ∧
      (⟨"userdata.img", "e/userdata.img", "u/userdata.img", 1, false, none⟩ :
        MoveTrace).copyRc =
        (⟨fun _ _ => 1, fun _ => false, fun _ => 0⟩ : FsOps).cpResult
          (pathJoin "e" "userdata.img") (pathJoin "u" "userdata.img") ∧
      (⟨"userdata.img", "e/userdata.img", "u/userdata.img", 1, false, none⟩ :
        MoveTrace).deleteAttempted =
        (⟨fun _ _ => 1, fun _ => false, fun _ => 0⟩ : FsOps).existsAfterCopy
          (pathJoin "e" "userdata.img") ∧
      ((⟨"userdata.img", "e/userdata.img", "u/userdata.img", 1, false, none⟩ :
          MoveTrace).deleteAttempted = false →
        (⟨"userdata.img", "e/userdata.img", "u/userdata.img", 1, false, none⟩ :
          MoveTrace).deleteRc = none)) :=
  ⟨(move_userdata_delete_iff_live_exists "e" "u"
      ⟨fun _ _ => 1, fun _ => false, fun _ => 0⟩).1,
   (move_userdata_delete_iff_live_exists "e" "u"
      ⟨fun _ _ => 1, fun _ => false, fun _ => 0⟩).2
     ⟨"userdata.img", "e/userdata.img", "u/userdata.img", 1, false, none⟩
     (by decide)⟩

/-! ## Claim C8 -/

/-- C8: `tear_down` unconditionally performs `backup()` — one
`cp -f -a <live>/<f> <durable>/<f>` per userdata file, live directory to
durable store, all four files in order — and returns normally for *every*
oracle, including oracles on which every copy command fails: exit codes
are not inspected and no raising path exists. -/
theorem tear_down_always_backs_up (live durable : String) (ops : FsOps) :
    tear_down live durable ops = backup live durable ops ∧
    (tear_down live durable ops).map (fun cp => (cp.src, cp.dst)) =
      userdata_filenames.map (fun f => (pathJoin live f, pathJoin durable f)) := by
  refine ⟨rfl, ?_⟩
  unfold tear_down backup
  rw [List.map_map]
  rfl

/-! ## Lemmas about construction -/

/-- Every construction either succeeds — assigning the pre-increment
counter value as the channel id and advancing the counter by exactly 2 —
or fails leaving the counter untouched. -/
theorem emulatorInit_step (env : String → Option String) (c : Nat) (a : InitArgs) :
    (∃ e, (emulatorInit env c a).1 = Except.ok e ∧ e.adb_id = c ∧
      e.adb_name = "emulator-" ++ toString c ∧
      (emulatorInit env c a).2.1 = c + 2) ∨
    (∃ msg, (emulatorInit env c a).1 = Except.error msg ∧
      (emulatorInit env c a).2.1 = c) := by
  unfold emulatorInit
  by_cases hdev : a.device ∈ DEVICE
  · simp only [if_pos hdev]
    cases API_LEVEL.lookup a.android_version with
    | none =>
      exact Or.inr ⟨"android version '" ++ a.android_version ++ "' is not supported!",
        rfl, by trivial⟩
    | some al =>
      cases env ENV_WORK_PATH with
      | none =>
        exact Or.inr ⟨"environment variable '" ++ ENV_WORK_PATH ++ "' is not set!",
          rfl, by trivial⟩
      | some wd => exact Or.inl ⟨_, rfl, by trivial, by trivial, by trivial⟩
  · simp only [if_neg hdev]
    exact Or.inr ⟨"device '" ++ a.device ++ "' is not supported!", rfl, by trivial⟩

/-- Unfolding `assignedIds` over the first construction of a sequence. -/
theorem assignedIds_cons (env : String → Option String) (c : Nat)
    (a : InitArgs) (rest : List InitArgs) :
    assignedIds env c (a :: rest) =
      (match (emulatorInit env c a).1 with
        | Except.ok e => e.adb_id :: assignedIds env (emulatorInit env c a).2.1 rest
        | Except.error _ => assignedIds env (emulatorInit env c a).2.1 rest) := by
  unfold assignedIds
  have h1 : (initSeq env c (a :: rest)).1 =
      (emulatorInit env c a).1 :: (initSeq env (emulatorInit env c a).2.1 rest).1 := rfl
  rw [h1, List.filterMap_cons]
  cases (emulatorInit env c a).1 with
  | ok e => rfl
  | error msg => rfl

/-- The ids assigned along any construction sequence form an arithmetic
progression `c, c+2, c+4, ...` (failed constructions contribute nothing
and do not move the counter). -/
theorem assignedIds_arith (env : String → Option String) :
    ∀ (args : List InitArgs) (c : Nat), ∃ n, assignedIds env c args = arithSeq c n := by
  intro args
  induction args with
  | nil => intro c; exact ⟨0, rfl⟩
  | cons a rest ih =>
    intro c
    rw [assignedIds_cons]
    rcases emulatorInit_step env c a with ⟨e, hok, hid, _, hc⟩ | ⟨msg, herr, hc⟩
    · obtain ⟨n, hn⟩ := ih (c + 2)
      refine ⟨n + 1, ?_⟩
      rw [hok]
      show e.adb_id :: assignedIds env (emulatorInit env c a).2.1 rest = arithSeq c (n + 1)
      rw [hid, hc, hn]
      rfl
    · obtain ⟨n, hn⟩ := ih c
      refine ⟨n, ?_⟩
      rw [herr]
      show assignedIds env (emulatorInit env c a).2.1 rest = arithSeq c n
      rw [hc, hn]

/-- `arithSeq` steps by exactly 2 between consecutive elements. -/
theorem arithSeq_chain' :
    ∀ (n c : Nat), List.Chain' (fun x y => y = x + 2) (arithSeq c n) := by
  intro n
  induction n with
  | zero => intro c; exact List.chain'_nil
  | succ m ih =>
    intro c
    cases m with
    | zero => exact List.chain'_singleton c
    | succ k =>
      show List.Chain' _ (c :: (c + 2) :: arithSeq (c + 2 + 2) k)
      exact List.Chain'.cons rfl (ih (c + 2))

/-- Every element of `arithSeq c n` is at least `c`. -/
theorem arithSeq_lb : ∀ (n c x : Nat), x ∈ arithSeq c n → c ≤ x := by
  intro n
  induction n with
  | zero => intro c x h; cases h
  | succ m ih =>
    intro c x h
    rcases List.mem_cons.mp h with rfl | h'
    · exact Nat.le_refl x
    · exact Nat.le_trans (by omega) (ih (c + 2) x h')

/-- `arithSeq` is strictly increasing. -/
theorem arithSeq_pairwise : ∀ (n c : Nat), (arithSeq c n).Pairwise (· < ·) := by
  intro n
  induction n with
  | zero => intro c; exact List.Pairwise.nil
  | succ m ih =>
    intro c
    refine List.Pairwise.cons ?_ (ih (c + 2))
    intro x hx
    have := arithSeq_lb m (c + 2) x hx
    omega

/-! ## Claim C6 -/

/-- C6: construction performs no filesystem or process interaction at all
(only environment reads, and those only after validation); for a hardware
profile outside the supported enumeration, and for a supported profile
with a platform version outside the supported table, it deterministically
returns the descriptive error of the source with an *empty* effect trace
— the failure strictly precedes any interaction. -/
theorem construction_fails_before_any_side_effect
    (env : String → Option String) (c : Nat) (a : InitArgs) :
    (∀ e ∈ (emulatorInit env c a).2.2, ∃ n, e = Effect.envRead n) ∧
    (a.device ∉ DEVICE →
      (emulatorInit env c a).1 =
        Except.error ("device '" ++ a.device ++ "' is not supported!") ∧
      (emulatorInit env c a).2.2 = []) ∧
    (a.device ∈ DEVICE → API_LEVEL.lookup a.android_version = none →
      (emulatorInit env c a).1 =
        Except.error ("android version '" ++ a.android_version ++ "' is not supported!") ∧
      (emulatorInit env c a).2.2 = []) := by
  unfold emulatorInit
  by_cases hdev : a.device ∈ DEVICE
  · simp only [if_pos hdev]
    cases hver : API_LEVEL.lookup a.android_version with
    | none =>
      exact ⟨by simp, fun h => absurd hdev h, fun _ _ => ⟨rfl, rfl⟩⟩
    | some al =>
      cases hwp : env ENV_WORK_PATH with
      | none =>
        refine ⟨?_, fun h => absurd hdev h, fun _ hv => ?_⟩
        · intro e he
          simp only [List.mem_singleton] at he
          exact ⟨ENV_WORK_PATH, he⟩
        · exact Option.noConfusion hv
      | some wd =>
        refine ⟨?_, fun h => absurd hdev h, fun _ hv => ?_⟩
        · intro e he
          fin_cases he
          · exact ⟨ENV_WORK_PATH, rfl⟩
          · exact ⟨ENV_EMULATOR_NO_SKIN, rfl⟩
          · exact ⟨ENV_SCREEN_WIDTH, rfl⟩
          · exact ⟨ENV_SCREEN_HEIGHT, rfl⟩
          · exact ⟨ENV_SCREEN_DEPTH, rfl⟩
        · exact Option.noConfusion hv
  · simp only [if_neg hdev]
    exact ⟨by simp, fun _ => ⟨by trivial, by trivial⟩, fun h => absurd h hdev⟩

/-- Witness for `construction_fails_before_any_side_effect`: a concrete
unsupported device and a concrete supported device with an unsupported
version, both with empty effect traces. -/
theorem construction_fails_before_any_side_effect_witness :
    ((emulatorInit (fun _ => none) 5554 ⟨"e", "Pixel 9", "9.0", "2g", "", "t", "s"⟩).1 =
        Except.error ("device '" ++ "Pixel 9" ++ "' is not supported!") ∧
      (emulatorInit (fun _ => none) 5554 ⟨"e", "Pixel 9", "9.0", "2g", "", "t", "s"⟩).2.2 = []) ∧
    ((emulatorInit (fun _ => none) 5554 ⟨"e", "Nexus 5", "4.4", "2g", "", "t", "s"⟩).1 =
        Except.error ("android version '" ++ "4.4" ++ "' is not supported!") ∧
      (emulatorInit (fun _ => none) 5554 ⟨"e", "Nexus 5", "4.4", "2g", "", "t", "s"⟩).2.2 = []) :=
  ⟨(construction_fails_before_any_side_effect (fun _ => none) 5554
      ⟨"e", "Pixel 9", "9.0", "2g", "", "t", "s"⟩).2.1 (by decide),
   (construction_fails_before_any_side_effect (fun _ => none) 5554
      ⟨"e", "Nexus 5", "4.4", "2g", "", "t", "s"⟩).2.2 (by decide) (by decide)⟩

/-! ## Claim C7 -/

/-- C7: across any sequence of constructions sharing the class counter,
the channel identifiers assigned to the *successful* constructions are
strictly increasing and never repeat, consecutive successes differing by
exactly 2 (failed constructions do not move the counter). -/
theorem adb_id_allocation_monotone (env : String → Option String)
    (c : Nat) (args : List InitArgs) :
    List.Chain' (fun x y => y = x + 2) (assignedIds env c args) ∧
    (assignedIds env c args).Pairwise (· < ·) := by
  obtain ⟨n, hn⟩ := assignedIds_arith env args c
  rw [hn]
  exact ⟨arithSeq_chain' n c, arithSeq_pairwise n c⟩

/-! ## Claim C10 -/

/-- C10: a construction failing validation (unsupported device or
unsupported platform version) leaves the shared counter unchanged; a
successful construction derives its channel name from the counter value
*before* the increment, so the first successful instance in a process
(counter at its initial value 5554) is named `emulator-5554`. -/
theorem counter_unchanged_on_failure_name_preincrement
    (env : String → Option String) (c : Nat) (a : InitArgs) :
    ((a.device ∉ DEVICE ∨ API_LEVEL.lookup a.android_version = none) →
      (emulatorInit env c a).2.1 = c) ∧
    (∀ e, (emulatorInit env c a).1 = Except.ok e →
      e.adb_id = c ∧ e.adb_name = "emulator-" ++ toString c) ∧
    (∀ e, (emulatorInit env adb_name_id_init a).1 = Except.ok e →
      e.adb_name = "emulator-5554") := by
  have hstep := emulatorInit_step env c a
  have hok : ∀ e, (emulatorInit env c a).1 = Except.ok e →
      e.adb_id = c ∧ e.adb_name = "emulator-" ++ toString c := by
    intro e he
    rcases hstep with ⟨e', he', hid, hname, _⟩ | ⟨msg, herr, _⟩
    · rw [he] at he'
      injection he' with h
      rw [← h] at hid hname
      exact ⟨hid, hname⟩
    · rw [he] at herr; cases herr
  refine ⟨?_, hok, ?_⟩
  · intro hbad
    rcases hstep with ⟨e, he, _, _, _⟩ | ⟨msg, herr, hc⟩
    · exfalso
      revert he
      unfold emulatorInit
      rcases hbad with hdev | hver
      · simp only [if_neg hdev]
        intro h; cases h
      · by_cases hdev : a.device ∈ DEVICE
        · simp only [if_pos hdev, hver]
          intro h; cases h
        · simp only [if_neg hdev]
          intro h; cases h
    · exact hc
  · intro e he
    have := emulatorInit_step env adb_name_id_init a
    rcases this with ⟨e', he', _, hname, _⟩ | ⟨msg, herr, _⟩
    · rw [he] at he'
      injection he' with h
      rw [← h] at hname
      rw [hname]
      decide
    · rw [he] at herr; cases herr

/-- Witness for `counter_unchanged_on_failure_name_preincrement`: a
concrete failed construction leaves the counter at 7; a concrete
successful construction from the initial counter 5554 is named
`emulator-5554`. -/
theorem counter_unchanged_on_failure_name_preincrement_witness :
    (emulatorInit (fun _ => none) 7 ⟨"e", "Pixel 9", "9.0", "2g", "", "t", "s"⟩).2.1 = 7 ∧
    ((⟨5554, "emulator-5554", "e", "Nexus 5", "9.0", "28", "2g", "", "t", "s",
        "/data", "/data/emulator", "/data/emulator/config.ini", "nexus_5",
        none, 15⟩ : EmulatorRec).adb_id = 5554 ∧
      (⟨5554, "emulator-5554", "e", "Nexus 5", "9.0", "28", "2g", "", "t", "s",
        "/data", "/data/emulator", "/data/emulator/config.ini", "nexus_5",
        none, 15⟩ : EmulatorRec).adb_name = "emulator-" ++ toString 5554) ∧
    (⟨5554, "emulator-5554", "e", "Nexus 5", "9.0", "28", "2g", "", "t", "s",
        "/data", "/data/emulator", "/data/emulator/config.ini", "nexus_5",
        none, 15⟩ : EmulatorRec).adb_name = "emulator-5554" :=
  ⟨(counter_unchanged_on_failure_name_preincrement (fun _ => none) 7
      ⟨"e", "Pixel 9", "9.0", "2g", "", "t", "s"⟩).1 (Or.inl (by decide)),
   (counter_unchanged_on_failure_name_preincrement
      (fun n => if n == "WORK_PATH" then some "/data" else none) 5554
      ⟨"e", "Nexus 5", "9.0", "2g", "", "t", "s"⟩).2.1 _ rfl,
   (counter_unchanged_on_failure_name_preincrement
      (fun n => if n == "WORK_PATH" then some "/data" else none) 5554
      ⟨"e", "Nexus 5", "9.0", "2g", "", "t", "s"⟩).2.2 _ rfl⟩

end DockerAndroid
